import Mathlib

set_option maxHeartbeats 1000000

/-!
Verification development for the Detailed Canvas enrichment plugin.

This file gives a shallow embedding of the plugin source:
the canvas data model (`src/types.ts`), the canvas transformer
(`src/canvas/transformer.ts`), the change monitor (`src/canvas/monitor.ts`),
the scraper (`src/services/scraper.ts`), the generation providers
(`src/services/ollama.ts`, `src/services/openai-provider.ts`,
`src/services/claude-provider.ts`) and the enrichment orchestrator
(`DetailedCanvasPlugin.enrichLinkNode` in `src/main.ts`).

External collaborators (the network layer `requestUrl`, the WHATWG URL
parser, `DOMParser`, the vault) are modelled as explicit oracles passed in,
so that every embedded operation is a total computable function of its
inputs; a thrown JavaScript error is modelled with `Except`/`Option`.
JavaScript truthiness on `string | null` values is modelled by `strTruthy`.
-/

namespace DetailedCanvas

/-- JS truthiness of a `string | null` value: truthy iff present and non-empty. -/
def strTruthy : Option String → Bool
  | some s => s != ""
  | none => false

/-- JS whitespace as matched by the regex class backslash-s (the common
characters; the NBSP and Unicode cases are not needed by any claim). -/
def isJsWs (c : Char) : Bool :=
  c == ' ' || c == '\t' || c == '\n' || c == '\r' || c == '\x0b' || c == '\x0c'

/-- The `.toLowerCase()` of a string, character by character. -/
def toLowerStr (s : String) : String := ⟨s.toList.map Char.toLower⟩

/-- The `.trim()` of a string: strip whitespace from both ends. -/
def trimStr (s : String) : String :=
  ⟨((s.toList.dropWhile isJsWs).reverse.dropWhile isJsWs).reverse⟩

/-- The `.startsWith(p)` test on strings. -/
def startsWithStr (s p : String) : Bool := p.toList.isPrefixOf s.toList

/-! ## Canvas data model (src/types.ts) -/

/-- Shared base of every canvas node: id plus geometry and an optional color. -/
structure CanvasNodeBase where
  id : String
  x : Int
  y : Int
  width : Int
  height : Int
  color : Option String
deriving DecidableEq

/-- Tagged union of the canvas node variants (link / file / text). -/
inductive CanvasNode where
  | link (base : CanvasNodeBase) (url : String)
  | file (base : CanvasNodeBase) (filePath : String) (subpath : Option String)
  | text (base : CanvasNodeBase) (content : String)
deriving DecidableEq

/-- The base record of a node. -/
def CanvasNode.base : CanvasNode → CanvasNodeBase
  | .link b _ => b
  | .file b _ _ => b
  | .text b _ => b

/-- The id of a node. -/
def CanvasNode.nodeId (n : CanvasNode) : String := n.base.id

/-- Whether a node is of the link variant (`node.type === "link"`). -/
def CanvasNode.isLink : CanvasNode → Bool
  | .link _ _ => true
  | _ => false

/-- A canvas edge; endpoints reference nodes by id. -/
structure CanvasEdgeData where
  id : String
  fromNode : String
  toNode : String
deriving DecidableEq

/-- A canvas document: nodes plus edges. -/
structure CanvasData where
  nodes : List CanvasNode
  edges : List CanvasEdgeData
deriving DecidableEq

/-! ## Canvas transformer (src/canvas/transformer.ts) -/

namespace CanvasTransformer

/-- The pure content transform executed inside `vault.process` by
`CanvasTransformer.replaceLinkWithFile`: find the node by id; if missing or
not a link node, return the content unchanged; otherwise replace it in place
by a file node that keeps the id and geometry, and the color when truthy. -/
def replaceLinkWithFileContent (canvasData : CanvasData) (linkNodeId : String)
    (notePath : String) : CanvasData :=
  match canvasData.nodes.findIdx? (fun node => node.nodeId == linkNodeId) with
  | none => canvasData
  | some nodeIndex =>
    match canvasData.nodes[nodeIndex]? with
    | some (CanvasNode.link base _) =>
      let fileNode : CanvasNode := .file
        { id := base.id, x := base.x, y := base.y,
          width := base.width, height := base.height,
          color := if strTruthy base.color then base.color else none }
        notePath none
      { canvasData with nodes := canvasData.nodes.set nodeIndex fileNode }
    | _ => canvasData

/-- The full `replaceLinkWithFile` call. The canvas file content is given
already JSON-parsed (`none` models content on which `JSON.parse` throws, in
which case `vault.process` aborts and the catch returns `false`). Returns
the boolean result together with the document content afterwards. Note the
boolean is `true` whenever the content parses, even when the node was not
found or was not a link node. -/
def replaceLinkWithFile (parsed : Option CanvasData) (linkNodeId notePath : String) :
    Bool × Option CanvasData :=
  match parsed with
  | none => (false, none)
  | some doc => (true, some (replaceLinkWithFileContent doc linkNodeId notePath))

end CanvasTransformer

/-! ## Change monitor (src/canvas/monitor.ts) -/

/-- Monitor state: `seenNodes` maps a canvas path to the link-node id set of
the last successful scan; `initializedCanvases` lists canvases scanned at
least once. The JS `Map` / `Set` are modelled by insertion-ordered lists. -/
structure MonitorState where
  seenNodes : List (String × List String)
  initializedCanvases : List String
deriving DecidableEq

/-- Lookup in the `seenNodes` map. -/
def getAssoc : List (String × List String) → String → Option (List String)
  | [], _ => none
  | (k, v) :: rest, key => if k == key then some v else getAssoc rest key

/-- `Map.set`: replace the binding of a key, or append a new binding. -/
def setAssoc : List (String × List String) → String → List String →
    List (String × List String)
  | [], key, v => [(key, v)]
  | (k, w) :: rest, key, v =>
    if k == key then (k, v) :: rest else (k, w) :: setAssoc rest key v

/-- `Set.add` on a string set modelled as a duplicate-free insertion-order list. -/
def addToIdSet (s : List String) (x : String) : List String :=
  if s.contains x then s else s ++ [x]

/-- Input to a scan: `unreadable` models a read or `JSON.parse` failure
(swallowed by the catch, state unchanged); `parsed` carries the document. -/
inductive ScanInput where
  | unreadable
  | parsed (doc : CanvasData)

namespace CanvasMonitor

/-- One iteration of the loop in `checkForNewLinks`: record the id in the
current set, and fire the callback (append the node to the event list) when
this is not the first scan and the id was absent from the baseline. -/
def scanStep (isFirstScan : Bool) (previouslySeen : List String)
    (acc : List String × List CanvasNode) (node : CanvasNode) :
    List String × List CanvasNode :=
  let current := addToIdSet acc.1 node.nodeId
  if !isFirstScan && !(previouslySeen.contains node.nodeId) then
    (current, acc.2 ++ [node])
  else
    (current, acc.2)

/-- `CanvasMonitor.checkForNewLinks`, returning the updated monitor state and
the list of nodes passed to the `onNewLinkNode` callback, in firing order. -/
def checkForNewLinks (st : MonitorState) (canvasPath : String) (input : ScanInput) :
    MonitorState × List CanvasNode :=
  match input with
  | .unreadable => (st, [])
  | .parsed canvasData =>
    let isFirstScan := !(st.initializedCanvases.contains canvasPath)
    let previouslySeen := (getAssoc st.seenNodes canvasPath).getD []
    let linkNodes := canvasData.nodes.filter CanvasNode.isLink
    let scanned := linkNodes.foldl (scanStep isFirstScan previouslySeen) ([], [])
    let seen1 := setAssoc st.seenNodes canvasPath scanned.1
    let init1 :=
      if isFirstScan then st.initializedCanvases ++ [canvasPath]
      else st.initializedCanvases
    ({ seenNodes := seen1, initializedCanvases := init1 }, scanned.2)

/-- `clearCache` with a specific path: drop that document only. -/
def clearCacheOne (st : MonitorState) (canvasPath : String) : MonitorState :=
  { seenNodes := st.seenNodes.filter (fun kv => kv.1 != canvasPath),
    initializedCanvases := st.initializedCanvases.filter (fun p => p != canvasPath) }

end CanvasMonitor

/-! ## Scraper (src/services/scraper.ts) -/

/-- Result record of a scrape (`UrlMetadata` in src/types.ts). Optional
fields are `Option String` with `none` for the JS `null`. -/
structure UrlMetadata where
  url : String
  title : Option String
  description : Option String
  ogImage : Option String
  siteName : Option String
  favicon : Option String
  textContent : String
deriving DecidableEq

/-- Result of parsing a URL with the WHATWG `new URL` constructor. -/
structure UrlParts where
  hostname : String
  origin : String
  protocol : String
deriving DecidableEq

/-- Author object of the fxtwitter API response. Each field may be absent. -/
structure TweetAuthor where
  name : Option String
  screen_name : Option String
  avatar_url : Option String
deriving DecidableEq

/-- A photo entry of the fxtwitter media object. -/
structure TweetPhoto where
  url : Option String
deriving DecidableEq

/-- A video entry of the fxtwitter media object. -/
structure TweetVideo where
  thumbnail_url : Option String
deriving DecidableEq

/-- The media card of an embedded outside link in the fxtwitter response. -/
structure TweetCardMedia where
  thumbnail_url : Option String
deriving DecidableEq

/-- Media object of the fxtwitter API response. `mediaExternal` embeds the
field the source calls by the reserved word for an outside-link card. -/
structure TweetMedia where
  photos : Option (List TweetPhoto)
  videos : Option (List TweetVideo)
  mediaExternal : Option TweetCardMedia
deriving DecidableEq

/-- The tweet object of the fxtwitter API response. -/
structure Tweet where
  text : Option String
  author : Option TweetAuthor
  media : Option TweetMedia
deriving DecidableEq

/-- Top-level fxtwitter API response body. -/
structure TwitterApiBody where
  tweet : Option Tweet
deriving DecidableEq

/-- An HTTP response as produced by `requestUrl` with `throw: false`.
`tweetJson` is the value of the `.json` getter interpreted under the
fxtwitter shape; `none` models a body on which the getter throws. -/
structure HttpResp where
  status : Nat
  text : String
  tweetJson : Option TwitterApiBody

/-- Outcome of a `requestUrl` call: a transport-level rejection, or a
response (any status; `throw: false` never rejects on a bad status). -/
inductive FetchOutcome where
  | reject (msg : String)
  | resp (r : HttpResp)

/-- Abstraction of a parsed HTML document, shaped by exactly the queries the
scraper performs. A `some none` in a `Option (Option String)` field means
the element exists but the queried attribute is null. `bodyCleanText` is the
text content of the body after removing the non-content subtrees (`none`
when the document has no body element). -/
structure HtmlDoc where
  metaProperty : String → Option (Option String)
  metaName : String → Option (Option String)
  titleText : Option String
  iconHref : String → Option (Option String)
  bodyCleanText : Option String

/-- The environment collaborators of the scraper: URL parsing, relative URL
resolution, the network, and the HTML parser (which never throws). -/
structure World where
  parseUrl : String → Option UrlParts
  resolveRel : String → String → Option String
  fetch : String → String → FetchOutcome
  parseHtml : String → HtmlDoc

namespace ScraperService

/-- The `TWITTER_HOSTS` constant. -/
def twitterHosts : List String :=
  ["twitter.com", "www.twitter.com", "x.com", "www.x.com"]

/-- The literal `/status/` segment of `TWITTER_STATUS_RE`. -/
def statusLit : List Char := "/status/".toList

/-- Try to match the regular expression pattern
slash, one-or-more non-slash (captured), `/status/`, one-or-more digits
(captured) at the start of the given character list. -/
def matchStatusAt (cs : List Char) : Option (String × String) :=
  match cs with
  | '/' :: rest =>
    let p := rest.span (fun c => c != '/')
    if p.1.isEmpty then none
    else if statusLit.isPrefixOf p.2 then
      let digits := (p.2.drop statusLit.length).takeWhile Char.isDigit
      if digits.isEmpty then none
      else some (String.mk p.1, String.mk digits)
    else none
  | _ => none

/-- Leftmost match of `TWITTER_STATUS_RE` (`url.match(...)`), returning the
captured screen name and tweet id. -/
def findStatusMatch : List Char → Option (String × String)
  | [] => none
  | c :: rest =>
    match matchStatusAt (c :: rest) with
    | some r => some r
    | none => findStatusMatch rest

/-- `createEmptyMetadata`: the record returned for every failed scrape. -/
def createEmptyMetadata (url : String) : UrlMetadata :=
  { url := url, title := none, description := none, ogImage := none,
    siteName := none, favicon := none, textContent := "" }

/-- `extractMeta`: content of the first meta element matching the property
attribute, else of the first matching the name attribute, else null. When
the element exists its content attribute is returned even when null. -/
def extractMeta (doc : HtmlDoc) (property : String) : Option String :=
  match doc.metaProperty property with
  | some contentAttr => contentAttr
  | none =>
    match doc.metaName property with
    | some contentAttr => contentAttr
    | none => none

/-- `extractTitle`: og:title when truthy, else the trimmed title element
text when truthy, else null. -/
def extractTitle (doc : HtmlDoc) : Option String :=
  let ogTitle := extractMeta doc "og:title"
  if strTruthy ogTitle then ogTitle
  else
    match doc.titleText with
    | some t => if t != "" then some (trimStr t) else none
    | none => none

/-- `extractDescription`: og:description when truthy, else the standard
description meta tag when truthy, else null. -/
def extractDescription (doc : HtmlDoc) : Option String :=
  let og := extractMeta doc "og:description"
  if strTruthy og then og
  else
    let d := extractMeta doc "description"
    if strTruthy d then d else none

/-- `resolveUrl`: absolute URLs pass through; protocol-relative URLs get the
protocol of the base; otherwise resolve relative to the base; on any URL
parsing error return the candidate unresolved. -/
def resolveUrl (w : World) (relative : String) (base : String) : String :=
  if startsWithStr relative "http://" || startsWithStr relative "https://" then relative
  else if startsWithStr relative "//" then
    match w.parseUrl base with
    | some parts => parts.protocol ++ relative
    | none => relative
  else
    match w.resolveRel relative base with
    | some href => href
    | none => relative

/-- `extractImage`: og:image when truthy, else twitter:image when truthy,
each resolved against the base URL; else null. -/
def extractImage (w : World) (doc : HtmlDoc) (baseUrl : String) : Option String :=
  let twCase :=
    match extractMeta doc "twitter:image" with
    | some s => if s != "" then some (resolveUrl w s baseUrl) else none
    | none => none
  match extractMeta doc "og:image" with
  | some s => if s != "" then some (resolveUrl w s baseUrl) else twCase
  | none => twCase

/-- Collapse every whitespace run to a single space (the first replace of
`extractTextContent`; the second replace is then a no-op since no newline
remains). -/
def collapseWsAux : Bool → List Char → List Char
  | _, [] => []
  | prevWs, c :: cs =>
    if isJsWs c then
      if prevWs then collapseWsAux true cs
      else ' ' :: collapseWsAux true cs
    else c :: collapseWsAux false cs

/-- Whitespace collapse on strings. -/
def collapseWs (s : String) : String := ⟨collapseWsAux false s.toList⟩

/-- `extractTextContent`: cleaned body text, whitespace-collapsed, trimmed,
truncated to 10000 characters with a marker appended when over the cap. -/
def extractTextContent (doc : HtmlDoc) : String :=
  match doc.bodyCleanText with
  | none => ""
  | some raw =>
    let text := trimStr (collapseWs raw)
    if text.length > 10000 then (text.take 10000) ++ "..." else text

/-- `extractFavicon`: first icon link element with a truthy href among the
three selectors, resolved to absolute; else the conventional root path. -/
def extractFavicon (w : World) (doc : HtmlDoc) (baseUrl : String) : String :=
  let tryS := fun (sel : String) =>
    match doc.iconHref sel with
    | some (some href) => if href != "" then some (resolveUrl w href baseUrl) else none
    | _ => none
  match tryS "link[rel=\"icon\"]" with
  | some r => r
  | none =>
    match tryS "link[rel=\"shortcut icon\"]" with
    | some r => r
    | none =>
      match tryS "link[rel=\"apple-touch-icon\"]" with
      | some r => r
      | none => baseUrl ++ "/favicon.ico"

/-- `validateImageUrl`: HEAD probe; the URL survives only on status 200. -/
def validateImageUrl (w : World) (imageUrl : String) : Option String :=
  match w.fetch imageUrl "HEAD" with
  | .reject _ => none
  | .resp r => if r.status == 200 then some imageUrl else none

/-- `scrapeTwitter`: map the fxtwitter JSON mirror API for a status URL, or
degrade to the empty record on a missing pattern match, a non-200 response,
an unreadable body, or a missing tweet object. -/
def scrapeTwitter (w : World) (originalUrl : String) : UrlMetadata :=
  match findStatusMatch originalUrl.toList with
  | none => createEmptyMetadata originalUrl
  | some (screenName, tweetId) =>
    let apiUrl := "https://api.fxtwitter.com/" ++ screenName ++ "/status/" ++ tweetId
    match w.fetch apiUrl "GET" with
    | .reject _ => createEmptyMetadata originalUrl
    | .resp r =>
      if r.status != 200 then createEmptyMetadata originalUrl
      else
        match r.tweetJson with
        | none => createEmptyMetadata originalUrl
        | some body =>
          match body.tweet with
          | none => createEmptyMetadata originalUrl
          | some tweet =>
            let ogImage1 : Option String :=
              match tweet.media with
              | some m =>
                match m.photos with
                | some (p :: _) => p.url
                | _ =>
                  match m.videos with
                  | some (v :: _) => v.thumbnail_url
                  | _ =>
                    match m.mediaExternal with
                    | some e => if strTruthy e.thumbnail_url then e.thumbnail_url else none
                    | none => none
              | none => none
            let ogImage2 : Option String :=
              if !(strTruthy ogImage1) then
                match tweet.author with
                | some a => if strTruthy a.avatar_url then a.avatar_url else ogImage1
                | none => ogImage1
              else ogImage1
            let ogImage3 : Option String :=
              if strTruthy ogImage2 then validateImageUrl w (ogImage2.getD "")
              else ogImage2
            let authorName :=
              match tweet.author with
              | some a => a.name.getD screenName
              | none => screenName
            let authorScreen :=
              match tweet.author with
              | some a => a.screen_name.getD screenName
              | none => screenName
            { url := originalUrl,
              title := some (authorName ++ " (@" ++ authorScreen ++ ")"),
              description := tweet.text,
              ogImage := ogImage3,
              siteName := some "X (Twitter)",
              favicon := (match tweet.author with
                          | some a => a.avatar_url
                          | none => none),
              textContent := tweet.text.getD "" }

/-- `ScraperService.scrape`: dispatch twitter hosts to the mirror API, fetch
and extract HTML metadata otherwise, degrade every failure to the empty
record. Total by construction, mirroring the top-level try/catch. -/
def scrape (w : World) (url : String) : UrlMetadata :=
  match w.parseUrl url with
  | none => createEmptyMetadata url
  | some parts =>
    if twitterHosts.contains (toLowerStr parts.hostname) then scrapeTwitter w url
    else
      match w.fetch url "GET" with
      | .reject _ => createEmptyMetadata url
      | .resp r =>
        if r.status != 200 then createEmptyMetadata url
        else
          let doc := w.parseHtml r.text
          let baseUrl := parts.origin
          let title := extractTitle doc
          let description := extractDescription doc
          let ogImageCandidate := extractImage w doc baseUrl
          let ogImage :=
            if strTruthy ogImageCandidate then
              validateImageUrl w (ogImageCandidate.getD "")
            else none
          let siteName := extractMeta doc "og:site_name"
          let favicon := some (extractFavicon w doc baseUrl)
          let textContent := extractTextContent doc
          { url := url, title := title, description := description,
            ogImage := ogImage, siteName := siteName, favicon := favicon,
            textContent := textContent }

end ScraperService

/-! ## Generation providers (src/services/ollama.ts, openai-provider.ts,
claude-provider.ts) -/

/-- Outcome of a provider network call, with the response body already
interpreted under the endpoint's JSON shape (`none` models a body on which
the `.json` getter throws). -/
inductive NetResult (β : Type) where
  | transportError (msg : String)
  | http (status : Nat) (text : String) (body : Option β)

/-- The part of the Ollama generate request relevant to the contract. -/
structure OllamaRequest where
  model : String
  prompt : String
deriving DecidableEq

/-- Body of an Ollama generate response; `none` models a missing or falsy
`response` field only insofar as absence (the empty string is `some ""`). -/
structure OllamaGenerateResponse where
  response : Option String
deriving DecidableEq

/-- The prompt actually sent: when the context is truthy it is prefixed
under the fixed `Context:` framing (`context ? ... : prompt`). -/
def fullPromptOf (context prompt : String) : String :=
  if context != "" then "Context:\n" ++ context ++ "\n\n" ++ prompt else prompt

namespace OllamaClient

/-- `OllamaClient.generate`. The network is an oracle from the request sent.
Every failure is rethrown by the catch with the `Failed to generate text:`
framing; success returns the trimmed response text. -/
def generate (model prompt context : String)
    (fetch : OllamaRequest → NetResult OllamaGenerateResponse) :
    Except String String :=
  let fullPrompt := fullPromptOf context prompt
  match fetch { model := model, prompt := fullPrompt } with
  | .transportError msg => .error ("Failed to generate text: " ++ msg)
  | .http status text body =>
    if status != 200 then
      .error ("Failed to generate text: Ollama API request failed with status "
        ++ toString status ++ ": " ++ text)
    else
      match body with
      | none => .error "Failed to generate text: unexpected end of JSON input"
      | some data =>
        match data.response with
        | none =>
          .error "Failed to generate text: Invalid response from Ollama API: missing response field"
        | some s =>
          if s == "" then
            .error "Failed to generate text: Invalid response from Ollama API: missing response field"
          else .ok (trimStr s)

/-- One model entry of the Ollama tags response. -/
structure ModelEntry where
  name : String
deriving DecidableEq

/-- Body of an Ollama tags response; `models := none` models a missing or
non-array field. -/
structure TagsResponse where
  models : Option (List ModelEntry)
deriving DecidableEq

/-- `OllamaClient.getModels`: the model names on success; on any failure the
catch rethrows a typed error (it does NOT fall back to the configured
model). -/
def getModels (fetch : NetResult TagsResponse) : Except String (List String) :=
  match fetch with
  | .transportError msg => .error ("Failed to fetch models: " ++ msg)
  | .http status _ body =>
    if status != 200 then
      .error ("Failed to fetch models: Failed to fetch models: status " ++ toString status)
    else
      match body with
      | none => .error "Failed to fetch models: unexpected end of JSON input"
      | some data =>
        match data.models with
        | none => .error "Failed to fetch models: Invalid response from Ollama API: missing models field"
        | some models => .ok (models.map ModelEntry.name)

end OllamaClient

/-- A chat-completion choice message; `content := none` models a missing
property (reading it then throws a TypeError). -/
structure OpenAIMessage where
  content : Option String
deriving DecidableEq

/-- A chat-completion choice; `message := none` models a missing property. -/
structure OpenAIChoice where
  message : Option OpenAIMessage
deriving DecidableEq

/-- Body of a chat-completion response; `choices := none` models a missing
field. -/
structure OpenAIChatResponse where
  choices : Option (List OpenAIChoice)
deriving DecidableEq

/-- One model entry of the `/models` listing. -/
structure OpenAIModelEntry where
  id : String
deriving DecidableEq

/-- Body of a `/models` response; `data := none` models a missing or
non-array field. -/
structure OpenAIModelsResponse where
  data : Option (List OpenAIModelEntry)
deriving DecidableEq

namespace OpenAICompatibleProvider

/-- `OpenAICompatibleProvider.generate`. The network is an oracle from the
full prompt sent as the single user message. There is no try/catch: every
failure is a raised error; success returns the trimmed content of the first
choice, with no emptiness check on it. -/
def generate (model prompt context : String)
    (fetch : String → NetResult OpenAIChatResponse) : Except String String :=
  let fullPrompt := fullPromptOf context prompt
  let _ := model
  match fetch fullPrompt with
  | .transportError msg => .error msg
  | .http status text body =>
    if status != 200 then
      .error ("API request failed with status " ++ toString status ++ ": " ++ text)
    else
      match body with
      | none => .error "unexpected end of JSON input"
      | some data =>
        match data.choices with
        | none => .error "Invalid response: no choices returned"
        | some [] => .error "Invalid response: no choices returned"
        | some (c :: _) =>
          match c.message with
          | none => .error "TypeError: reading message of undefined"
          | some m =>
            match m.content with
            | none => .error "TypeError: reading content of undefined"
            | some s => .ok (trimStr s)

/-- `OpenAICompatibleProvider.getModels`: total; every failure path falls
back to the single currently configured model identifier. -/
def getModels (model : String) (fetch : NetResult OpenAIModelsResponse) :
    List String :=
  match fetch with
  | .transportError _ => [model]
  | .http status _ body =>
    if status != 200 then [model]
    else
      match body with
      | none => [model]
      | some d =>
        match d.data with
        | none => [model]
        | some entries => entries.map OpenAIModelEntry.id

end OpenAICompatibleProvider

/-- The hardcoded Claude model list (`CLAUDE_MODELS` in src/constants.ts). -/
def CLAUDE_MODELS : List String :=
  ["claude-3-haiku-20240307", "claude-3-5-haiku-20241022",
   "claude-3-5-sonnet-20241022", "claude-3-5-sonnet-20240620",
   "claude-sonnet-4-20250514"]

namespace ClaudeProvider

/-- `ClaudeProvider.getModels`: always the fixed hardcoded list. -/
def getModels : List String := CLAUDE_MODELS

end ClaudeProvider

/-! ## Enrichment orchestrator (DetailedCanvasPlugin.enrichLinkNode,
src/main.ts lines 140-210) -/

/-- The `EnrichmentResult` record of src/types.ts. -/
structure EnrichmentResult where
  success : Bool
  notePath : Option String
  error : Option String
deriving DecidableEq

/-- Observable side effects of one enrichment attempt, in invocation order.
`noteCreated` carries the description text handed to the note generator;
`mutated` records that the canvas write was invoked. -/
inductive Effect where
  | scraped (url : String)
  | generated (prompt context : String)
  | noteCreated (aiDescription : String)
  | mutated (nodeId notePath : String)
deriving DecidableEq

/-- Collaborator oracles of one `enrichLinkNode` call: the scraper world,
the configured provider (an `Except` models a thrown generation error), the
note generator (`Except` models a thrown vault error, `ok` gives the note
path), and the parsed content of the canvas file at mutation time (`none`
models content on which `JSON.parse` throws). -/
structure EnrichEnv where
  world : World
  generate : String → String → Except String String
  createNote : Except String String
  canvasParsed : Option CanvasData

/-- Result of one `enrichLinkNode` call: the returned `EnrichmentResult`,
the in-flight set afterwards, the effects performed, and the canvas content
afterwards (`none` when the content was unparsable and therefore untouched). -/
structure EnrichOutcome where
  result : EnrichmentResult
  inFlight : List String
  effects : List Effect
  canvasAfter : Option CanvasData

namespace DetailedCanvasPlugin

/-- The try block of `enrichLinkNode` together with the surrounding catch:
scrape, generate with the description/placeholder fallback, create the note,
replace the link node; a thrown error becomes a failure result. The null
guard after scrape in the source is vacuous since scrape is total. -/
def enrichBody (env : EnrichEnv) (descriptionPrompt nodeId url : String) :
    EnrichmentResult × List Effect × Option CanvasData :=
  let metadata := ScraperService.scrape env.world url
  let aiDescription :=
    match env.generate descriptionPrompt metadata.textContent with
    | .ok s => s
    | .error _ =>
      match metadata.description with
      | some d => if d != "" then d else "No description available."
      | none => "No description available."
  let effs : List Effect :=
    [.scraped url, .generated descriptionPrompt metadata.textContent,
     .noteCreated aiDescription]
  match env.createNote with
  | .error msg =>
    ({ success := false, notePath := none, error := some msg }, effs,
      env.canvasParsed)
  | .ok notePath =>
    let rep := CanvasTransformer.replaceLinkWithFile env.canvasParsed nodeId notePath
    let effs1 := effs ++ [.mutated nodeId notePath]
    if !rep.1 then
      ({ success := false, notePath := none, error := some "Failed to update canvas" },
        effs1, rep.2)
    else
      ({ success := true, notePath := some notePath, error := none }, effs1, rep.2)

/-- `DetailedCanvasPlugin.enrichLinkNode`: the single-flight guard around
`enrichBody`. The composite key is `path:id`; a call finding the key present
returns the `Already processing` failure with no work done; otherwise the
key is inserted, the body runs, and the finally clause removes the key on
every exit path. -/
def enrichLinkNode (env : EnrichEnv) (descriptionPrompt : String)
    (inFlight : List String) (canvasPath nodeId url : String) : EnrichOutcome :=
  let nodeKey := canvasPath ++ ":" ++ nodeId
  if inFlight.contains nodeKey then
    { result := { success := false, notePath := none, error := some "Already processing" },
      inFlight := inFlight, effects := [], canvasAfter := env.canvasParsed }
  else
    let inFlight1 := nodeKey :: inFlight
    let r := enrichBody env descriptionPrompt nodeId url
    { result := r.1, inFlight := inFlight1.erase nodeKey,
      effects := r.2.1, canvasAfter := r.2.2 }

end DetailedCanvasPlugin

/-! ## Concrete sample collaborators used by witnesses -/

/-- A parsed HTML document with no metadata at all. -/
def trivialDoc : HtmlDoc :=
  { metaProperty := fun _ => none, metaName := fun _ => none,
    titleText := none, iconHref := fun _ => none, bodyCleanText := none }

/-- A world whose network answers every request with a 404 page. -/
def world404 : World :=
  { parseUrl := fun _ =>
      some { hostname := "example.com", origin := "https://example.com",
             protocol := "https:" },
    resolveRel := fun _ _ => none,
    fetch := fun _ _ => .resp { status := 404, text := "", tweetJson := none },
    parseHtml := fun _ => trivialDoc }

/-- An enrichment environment over `world404` whose provider and vault both
fail; used to exercise guard paths that perform no work. -/
def envDown : EnrichEnv :=
  { world := world404, generate := fun _ _ => .error "backend down",
    createNote := .error "vault unavailable", canvasParsed := none }

/-! ## Helper lemmas about the monitor scan -/

/-- Membership after a `Set.add`. -/
lemma mem_addToIdSet (s : List String) (x i : String) :
    i ∈ addToIdSet s x ↔ (i ∈ s ∨ i = x) := by
  unfold addToIdSet
  split
  · rename_i h
    have hx : x ∈ s := List.mem_of_elem_eq_true h
    constructor
    · exact fun h1 => Or.inl h1
    · rintro (h1 | rfl)
      · exact h1
      · exact hx
  · simp

/-- Count of an element in a duplicate-free list. -/
lemma count_nodup (l : List String) (hl : l.Nodup) (i : String) :
    l.count i = if i ∈ l then 1 else 0 := by
  split
  · rename_i h
    exact List.count_eq_one_of_mem hl h
  · rename_i h
    exact List.count_eq_zero_of_not_mem h

namespace CanvasMonitor

/-- The current-id accumulator of `scanStep` is branch-independent. -/
lemma scanStep_fst (isFirst : Bool) (prev : List String)
    (acc : List String × List CanvasNode) (n : CanvasNode) :
    (scanStep isFirst prev acc n).1 = addToIdSet acc.1 n.nodeId := by
  unfold scanStep
  split <;> rfl

/-- The event accumulator of `scanStep`. -/
lemma scanStep_snd (isFirst : Bool) (prev : List String)
    (acc : List String × List CanvasNode) (n : CanvasNode) :
    (scanStep isFirst prev acc n).2 =
      if !isFirst && !(prev.contains n.nodeId) then acc.2 ++ [n] else acc.2 := by
  unfold scanStep
  split <;> simp_all

/-- Events collected by the scan loop: the nodes whose id was absent from
the baseline, in iteration order, none on a first scan. -/
lemma foldl_scanStep_snd (isFirst : Bool) (prev : List String) :
    ∀ (nodes : List CanvasNode) (acc : List String × List CanvasNode),
      (nodes.foldl (scanStep isFirst prev) acc).2 =
        acc.2 ++ nodes.filter (fun n => !isFirst && !(prev.contains n.nodeId))
  | [], acc => by simp
  | n :: rest, acc => by
    rw [List.foldl_cons, foldl_scanStep_snd isFirst prev rest _, List.filter_cons]
    by_cases h : isFirst = false ∧ n.nodeId ∉ prev
    · simp [scanStep_snd, h]
    · simp [scanStep_snd, h]

/-- Ids collected by the scan loop: the accumulator plus every link-node id. -/
lemma foldl_scanStep_fst_mem (isFirst : Bool) (prev : List String) :
    ∀ (nodes : List CanvasNode) (acc : List String × List CanvasNode) (i : String),
      i ∈ (nodes.foldl (scanStep isFirst prev) acc).1 ↔
        i ∈ acc.1 ∨ i ∈ nodes.map CanvasNode.nodeId
  | [], acc, i => by simp
  | n :: rest, acc, i => by
    rw [List.foldl_cons, foldl_scanStep_fst_mem isFirst prev rest _ i,
      scanStep_fst, List.map_cons]
    rw [mem_addToIdSet]
    simp only [List.mem_cons]
    tauto

end CanvasMonitor

/-- Looking up a key just set in the seen map yields the set value. -/
lemma getAssoc_setAssoc_self :
    ∀ (m : List (String × List String)) (k : String) (v : List String),
      getAssoc (setAssoc m k v) k = some v
  | [], k, v => by simp [setAssoc, getAssoc]
  | (k1, v1) :: rest, k, v => by
    by_cases h : k1 = k
    · subst h
      simp [setAssoc, getAssoc]
    · have hb : (k1 == k) = false := by simp [h]
      simp [setAssoc, getAssoc, hb, getAssoc_setAssoc_self rest k v]

/-! ## Claims -/

/-- C1: single-flight guard of `enrichLinkNode`. When the composite key
`path:id` is already in the in-flight set, the call returns immediately with
the `Already processing` failure result, performs no scrape, generation,
note creation or document mutation, and leaves the in-flight set untouched
(the key stays held by the concurrent attempt that inserted it). When the
key is absent, the attempt inserts it and the finally clause removes it on
every exit path, so after the call the in-flight set equals the original one
and in particular does not contain the key: the call never leaks the key it
added, across all scrape/generate/create/mutate outcomes including thrown
errors. -/
theorem enrichLinkNode_single_flight (env : EnrichEnv) (prompt : String)
    (inFlight : List String) (canvasPath nodeId url : String) :
    (inFlight.contains (canvasPath ++ ":" ++ nodeId) = true →
      (DetailedCanvasPlugin.enrichLinkNode env prompt inFlight canvasPath nodeId url).result =
        { success := false, notePath := none, error := some "Already processing" } ∧
      (DetailedCanvasPlugin.enrichLinkNode env prompt inFlight canvasPath nodeId url).inFlight
        = inFlight ∧
      (DetailedCanvasPlugin.enrichLinkNode env prompt inFlight canvasPath nodeId url).effects
        = [] ∧
      (DetailedCanvasPlugin.enrichLinkNode env prompt inFlight canvasPath nodeId url).canvasAfter
        = env.canvasParsed) ∧
    (inFlight.contains (canvasPath ++ ":" ++ nodeId) = false →
      (DetailedCanvasPlugin.enrichLinkNode env prompt inFlight canvasPath nodeId url).inFlight
        = inFlight ∧
      (DetailedCanvasPlugin.enrichLinkNode env prompt inFlight canvasPath nodeId url).inFlight.contains
        (canvasPath ++ ":" ++ nodeId) = false) := by
  constructor
  · intro h
    have h' : (canvasPath ++ ":" ++ nodeId) ∈ inFlight := List.mem_of_elem_eq_true h
    simp [DetailedCanvasPlugin.enrichLinkNode, h']
  · intro h
    have h' : ¬ (canvasPath ++ ":" ++ nodeId) ∈ inFlight := by
      simp only [List.contains] at h
      intro hmem
      rw [List.elem_eq_true_of_mem hmem] at h
      cases h
    have herase :
        (DetailedCanvasPlugin.enrichLinkNode env prompt inFlight canvasPath nodeId url).inFlight
          = inFlight := by
      simp [DetailedCanvasPlugin.enrichLinkNode, h', List.erase_cons_head]
    exact ⟨herase, by rw [herase]; exact h⟩

/-- Witness for C1: on a concrete in-flight set already holding the key, the
call returns the immediate failure with no effects; and on an empty set the
key is not left behind. -/
theorem enrichLinkNode_single_flight_witness :
    ((["a.canvas:n1"] : List String).contains ("a.canvas" ++ ":" ++ "n1") = true ∧
      (DetailedCanvasPlugin.enrichLinkNode envDown "p" ["a.canvas:n1"] "a.canvas" "n1" "u").result =
        { success := false, notePath := none, error := some "Already processing" } ∧
      (DetailedCanvasPlugin.enrichLinkNode envDown "p" ["a.canvas:n1"] "a.canvas" "n1" "u").effects
        = []) ∧
    (([] : List String).contains ("a.canvas" ++ ":" ++ "n1") = false ∧
      (DetailedCanvasPlugin.enrichLinkNode envDown "p" [] "a.canvas" "n1" "u").inFlight.contains
        ("a.canvas" ++ ":" ++ "n1") = false) := by
  refine ⟨⟨by decide, ?_, ?_⟩, ⟨by decide, ?_⟩⟩
  · exact ((enrichLinkNode_single_flight envDown "p" ["a.canvas:n1"] "a.canvas" "n1" "u").1
      (by decide)).1
  · exact ((enrichLinkNode_single_flight envDown "p" ["a.canvas:n1"] "a.canvas" "n1" "u").1
      (by decide)).2.2.1
  · exact ((enrichLinkNode_single_flight envDown "p" [] "a.canvas" "n1" "u").2
      (by decide)).2

/-- C2: change-monitor cold start and exactly-once. On the first scan of a
document no event fires; on a scan of an initialized document the events are
exactly the link nodes whose id is absent from the baseline, in document
iteration order, and (under the data-model invariant that link-node ids are
unique in a document) each such id fires exactly once; after every scan the
stored baseline for the document holds exactly the current link-node id set
and the document counts as initialized. -/
theorem checkForNewLinks_cold_start_exactly_once
    (st : MonitorState) (path : String) (doc : CanvasData)
    (hnodup : ((doc.nodes.filter CanvasNode.isLink).map CanvasNode.nodeId).Nodup) :
    (st.initializedCanvases.contains path = false →
       (CanvasMonitor.checkForNewLinks st path (.parsed doc)).2 = []) ∧
    (st.initializedCanvases.contains path = true →
       (CanvasMonitor.checkForNewLinks st path (.parsed doc)).2 =
         (doc.nodes.filter CanvasNode.isLink).filter
           (fun n => !(((getAssoc st.seenNodes path).getD []).contains n.nodeId)) ∧
       ∀ i : String,
         ((CanvasMonitor.checkForNewLinks st path (.parsed doc)).2.map
             CanvasNode.nodeId).count i =
           if i ∈ (doc.nodes.filter CanvasNode.isLink).map CanvasNode.nodeId ∧
              i ∉ (getAssoc st.seenNodes path).getD [] then 1 else 0) ∧
    (∀ i : String,
       i ∈ (getAssoc
              (CanvasMonitor.checkForNewLinks st path (.parsed doc)).1.seenNodes
              path).getD []
         ↔ i ∈ (doc.nodes.filter CanvasNode.isLink).map CanvasNode.nodeId) ∧
    path ∈ (CanvasMonitor.checkForNewLinks st path (.parsed doc)).1.initializedCanvases := by
  have hrun : CanvasMonitor.checkForNewLinks st path (.parsed doc) =
      ({ seenNodes := setAssoc st.seenNodes path
           (((doc.nodes.filter CanvasNode.isLink).foldl
               (CanvasMonitor.scanStep (!(st.initializedCanvases.contains path))
                 ((getAssoc st.seenNodes path).getD [])) ([], [])).1),
         initializedCanvases :=
           if !(st.initializedCanvases.contains path) then
             st.initializedCanvases ++ [path]
           else st.initializedCanvases },
       ((doc.nodes.filter CanvasNode.isLink).foldl
           (CanvasMonitor.scanStep (!(st.initializedCanvases.contains path))
             ((getAssoc st.seenNodes path).getD [])) ([], [])).2) := rfl
  refine ⟨?_, ?_, ?_, ?_⟩
  · intro h
    have h' : path ∉ st.initializedCanvases := by
      simp only [List.contains] at h
      intro hmem
      rw [List.elem_eq_true_of_mem hmem] at h
      cases h
    rw [hrun]
    rw [CanvasMonitor.foldl_scanStep_snd]
    simp [h']
  · intro h
    have h' : path ∈ st.initializedCanvases := List.mem_of_elem_eq_true h
    have hev : (CanvasMonitor.checkForNewLinks st path (.parsed doc)).2 =
        (doc.nodes.filter CanvasNode.isLink).filter
          (fun n => !(((getAssoc st.seenNodes path).getD []).contains n.nodeId)) := by
      rw [hrun]
      rw [CanvasMonitor.foldl_scanStep_snd]
      simp [h']
    refine ⟨hev, ?_⟩
    intro i
    rw [hev]
    have hsub : (((doc.nodes.filter CanvasNode.isLink).filter
        (fun n => !(((getAssoc st.seenNodes path).getD []).contains n.nodeId))).map
          CanvasNode.nodeId).Nodup :=
      List.Nodup.sublist (List.Sublist.map _ (List.filter_sublist _)) hnodup
    rw [count_nodup _ hsub i]
    have hmem_iff : i ∈ ((doc.nodes.filter CanvasNode.isLink).filter
        (fun n => !(((getAssoc st.seenNodes path).getD []).contains n.nodeId))).map
          CanvasNode.nodeId ↔
        (i ∈ (doc.nodes.filter CanvasNode.isLink).map CanvasNode.nodeId ∧
          i ∉ (getAssoc st.seenNodes path).getD []) := by
      simp only [List.mem_map, List.mem_filter]
      constructor
      · rintro ⟨n, ⟨hn, hp⟩, rfl⟩
        simp only [List.contains, Bool.not_eq_true'] at hp
        refine ⟨⟨n, hn, rfl⟩, ?_⟩
        intro hmem
        rw [List.elem_eq_true_of_mem hmem] at hp
        cases hp
      · rintro ⟨⟨n, hn, rfl⟩, hnotmem⟩
        refine ⟨n, ⟨hn, ?_⟩, rfl⟩
        simp only [List.contains, Bool.not_eq_true']
        cases hel : List.elem n.nodeId ((getAssoc st.seenNodes path).getD []) with
        | false => rfl
        | true => exact absurd (List.mem_of_elem_eq_true hel) hnotmem
    rw [if_congr hmem_iff rfl rfl]
  · intro i
    rw [hrun]
    simp only [getAssoc_setAssoc_self, Option.getD_some]
    rw [CanvasMonitor.foldl_scanStep_fst_mem]
    simp
  · rw [hrun]
    by_cases h : path ∈ st.initializedCanvases
    · simp [h]
    · simp [h]

/-- A concrete link node with id `a`. -/
def nodeLinkA : CanvasNode :=
  CanvasNode.link
    { id := "a", x := 0, y := 0, width := 1, height := 1, color := none }
    "https://a.example"

/-- A concrete link node with id `b`. -/
def nodeLinkB : CanvasNode :=
  CanvasNode.link
    { id := "b", x := 2, y := 2, width := 1, height := 1, color := none }
    "https://b.example"

/-- A document holding only link node `a`. -/
def docOnlyA : CanvasData := { nodes := [nodeLinkA], edges := [] }

/-- The same document after link node `b` was added. -/
def docAthenB : CanvasData := { nodes := [nodeLinkA, nodeLinkB], edges := [] }

/-- The empty monitor state. -/
def monSt0 : MonitorState := { seenNodes := [], initializedCanvases := [] }

/-- The monitor state after the first scan of `docOnlyA`. -/
def monSt1 : MonitorState :=
  (CanvasMonitor.checkForNewLinks monSt0 "c.canvas" (.parsed docOnlyA)).1

/-- With duplicate-free node ids, `findIndex` locates exactly the member
node that carries the looked-up id. -/
lemma findIdx_of_nodup_mem :
    ∀ (nodes : List CanvasNode) (n : CanvasNode) (key : String),
      (nodes.map CanvasNode.nodeId).Nodup → n ∈ nodes → n.nodeId = key →
      ∃ i, nodes.findIdx? (fun m => m.nodeId == key) = some i ∧ nodes[i]? = some n
  | [], n, key => by
    intro _ h _
    cases h
  | h :: t, n, key => by
    intro hnodup hmem hid
    rw [List.findIdx?_cons, List.findIdx?_succ]
    rcases List.mem_cons.mp hmem with rfl | hmemt
    · have hp : (n.nodeId == key) = true := by simp [hid]
      exact ⟨0, by simp [hp], by simp⟩
    · have hmemmap : key ∈ t.map CanvasNode.nodeId :=
        hid ▸ List.mem_map_of_mem _ hmemt
      have hnodup' := hnodup
      rw [List.map_cons, List.nodup_cons] at hnodup'
      have hkey_ne : (h.nodeId == key) = false := by
        have : h.nodeId ≠ key := fun he => hnodup'.1 (he ▸ hmemmap)
        simp [this]
      obtain ⟨i, hfi, hgi⟩ := findIdx_of_nodup_mem t n key hnodup'.2 hmemt hid
      rw [hkey_ne]
      refine ⟨i + 1, ?_, ?_⟩
      · simp [hfi]
      · simpa using hgi

/-- Witness for C2: a two-scan run on a concrete document. The first scan of
a document holding link node `a` emits nothing; a second scan after link
node `b` appeared emits the event for `b` exactly once. -/
theorem checkForNewLinks_witness :
    (CanvasMonitor.checkForNewLinks monSt0 "c.canvas" (.parsed docOnlyA)).2 = [] ∧
    ((CanvasMonitor.checkForNewLinks monSt1 "c.canvas" (.parsed docAthenB)).2.map
        CanvasNode.nodeId).count "b" = 1 := by
  constructor
  · exact (checkForNewLinks_cold_start_exactly_once monSt0 "c.canvas" docOnlyA
      (by decide)).1 (by decide)
  · have h2 := (checkForNewLinks_cold_start_exactly_once monSt1 "c.canvas" docAthenB
      (by decide)).2.1 (by decide)
    rw [h2.2 "b"]
    decide

/-- The base record of a link node whose color is present but empty. -/
def baseE : CanvasNodeBase :=
  { id := "e", x := 0, y := 0, width := 1, height := 1, color := some "" }

/-- A document holding a single link node with the empty-string color. -/
def docEmptyColor : CanvasData :=
  { nodes := [CanvasNode.link baseE "https://e.example"], edges := [] }

/-- C8 counterexample: the claim states that replacing a link node preserves
its color whenever it is present. The source applies a JS truthiness test
(`if (linkNode.color)`), so a present-but-empty color is dropped: on this
concrete document the link node carries `color = some ""`, yet the file node
after replacement carries no color at all, so the node after replacement is
not the color-preserving file node the claim promises and the claim as
stated is false. -/
theorem replaceLink_empty_color_dropped_counterexample :
    CanvasNode.link baseE "https://e.example" ∈ docEmptyColor.nodes ∧
    baseE.color = some "" ∧
    (CanvasTransformer.replaceLinkWithFileContent docEmptyColor "e" "note.md").nodes
      = [CanvasNode.file
          { id := "e", x := 0, y := 0, width := 1, height := 1, color := none }
          "note.md" none] ∧
    (CanvasTransformer.replaceLinkWithFileContent docEmptyColor "e" "note.md").nodes
      ≠ [CanvasNode.file baseE "note.md" none] := by
  refine ⟨?_, ?_, ?_, ?_⟩ <;> decide

/-- C8 amended: replacement frame property under the source's truthiness
rule for the color. For a document with duplicate-free node ids and a link
node present in it, replacing that node by a file node keeps its id, x, y,
width and height; the color is kept exactly when it is present and
non-empty, while a present-but-empty color is dropped to absent; every other
node position and the entire edge collection are unchanged, and therefore
every node id resolvable before is still resolvable afterwards. -/
theorem replaceLinkWithFile_frame
    (data : CanvasData) (base : CanvasNodeBase) (url notePath : String)
    (hnodup : (data.nodes.map CanvasNode.nodeId).Nodup)
    (hmem : CanvasNode.link base url ∈ data.nodes) :
    ∃ i, data.nodes[i]? = some (CanvasNode.link base url) ∧
      (CanvasTransformer.replaceLinkWithFileContent data base.id notePath).edges
        = data.edges ∧
      (CanvasTransformer.replaceLinkWithFileContent data base.id notePath).nodes.length
        = data.nodes.length ∧
      (base.color ≠ some "" →
        (CanvasTransformer.replaceLinkWithFileContent data base.id notePath).nodes[i]?
          = some (CanvasNode.file base notePath none)) ∧
      (base.color = some "" →
        (CanvasTransformer.replaceLinkWithFileContent data base.id notePath).nodes[i]?
          = some (CanvasNode.file
              { id := base.id, x := base.x, y := base.y, width := base.width,
                height := base.height, color := none } notePath none)) ∧
      (∀ j : Nat, j ≠ i →
        (CanvasTransformer.replaceLinkWithFileContent data base.id notePath).nodes[j]?
          = data.nodes[j]?) ∧
      (∀ s, (∃ m ∈ data.nodes, m.nodeId = s) →
        ∃ m ∈ (CanvasTransformer.replaceLinkWithFileContent data base.id notePath).nodes,
          m.nodeId = s) := by
  obtain ⟨i, hfi, hgi⟩ :=
    findIdx_of_nodup_mem data.nodes (CanvasNode.link base url) base.id hnodup hmem rfl
  have hrepl : CanvasTransformer.replaceLinkWithFileContent data base.id notePath =
      { data with nodes := data.nodes.set i (CanvasNode.file
          { id := base.id, x := base.x, y := base.y, width := base.width,
            height := base.height,
            color := if strTruthy base.color then base.color else none }
          notePath none) } := by
    unfold CanvasTransformer.replaceLinkWithFileContent
    simp only [hfi, hgi]
  have hlt : i < data.nodes.length := by
    rcases List.getElem?_eq_some.mp hgi with ⟨hl, _⟩
    exact hl
  have hset : (CanvasTransformer.replaceLinkWithFileContent data base.id notePath).nodes[i]?
      = some (CanvasNode.file
          { id := base.id, x := base.x, y := base.y, width := base.width,
            height := base.height,
            color := if strTruthy base.color then base.color else none }
          notePath none) := by
    rw [hrepl]
    show (data.nodes.set i _)[i]? = _
    rw [List.getElem?_set_self]
    simpa using hlt
  refine ⟨i, hgi, ?_, ?_, ?_, ?_, ?_, ?_⟩
  · rw [hrepl]
  · rw [hrepl]
    simp
  · intro hcolor
    have hcol : (if strTruthy base.color then base.color else none) = base.color := by
      cases hc : base.color with
      | none => simp [strTruthy]
      | some c =>
        have hne : c ≠ "" := fun he => hcolor (by rw [hc, he])
        simp [strTruthy, hne]
    rw [hcol] at hset
    exact hset
  · intro hcolor
    have hcol : (if strTruthy base.color then base.color else none) = none := by
      simp [hcolor, strTruthy]
    rw [hcol] at hset
    exact hset
  · intro j hne
    rw [hrepl]
    show (data.nodes.set i _)[j]? = _
    rw [List.getElem?_set_ne (fun he => hne he.symm)]
  · rintro s ⟨m, hm, hms⟩
    obtain ⟨j, hj⟩ := List.getElem?_of_mem hm
    by_cases hji : j = i
    · subst hji
      have hmeq : m = CanvasNode.link base url := by
        rw [hj] at hgi
        exact (Option.some.inj hgi.symm).symm
      refine ⟨CanvasNode.file
        { id := base.id, x := base.x, y := base.y, width := base.width,
          height := base.height,
          color := if strTruthy base.color then base.color else none }
        notePath none, ?_, ?_⟩
      · exact List.getElem?_mem hset
      · rw [← hms, hmeq]
        rfl
    · refine ⟨m, ?_, hms⟩
      apply List.getElem?_mem
      rw [hrepl]
      show (data.nodes.set i _)[j]? = some m
      rw [List.getElem?_set_ne (fun he => hji he.symm)]
      exact hj

/-- The base record of the witness link node for the frame property. -/
def baseC : CanvasNodeBase :=
  { id := "c", x := 3, y := 4, width := 5, height := 6, color := some "2" }

/-- A colored link node with id `c`. -/
def nodeLinkC : CanvasNode := CanvasNode.link baseC "https://c.example"

/-- A document holding nodes `a` and `c` plus an edge between them. -/
def docWithEdge : CanvasData :=
  { nodes := [nodeLinkA, nodeLinkC],
    edges := [{ id := "e1", fromNode := "a", toNode := "c" }] }

/-- Witness for the amended C8: the frame property applied to a concrete
two-node document with an edge and a non-empty color. -/
theorem replaceLinkWithFile_frame_witness :
    ∃ i, docWithEdge.nodes[i]? = some (CanvasNode.link baseC "https://c.example") ∧
      (CanvasTransformer.replaceLinkWithFileContent docWithEdge baseC.id "note.md").edges
        = docWithEdge.edges ∧
      (CanvasTransformer.replaceLinkWithFileContent docWithEdge baseC.id "note.md").nodes.length
        = docWithEdge.nodes.length ∧
      (baseC.color ≠ some "" →
        (CanvasTransformer.replaceLinkWithFileContent docWithEdge baseC.id "note.md").nodes[i]?
          = some (CanvasNode.file baseC "note.md" none)) ∧
      (baseC.color = some "" →
        (CanvasTransformer.replaceLinkWithFileContent docWithEdge baseC.id "note.md").nodes[i]?
          = some (CanvasNode.file
              { id := baseC.id, x := baseC.x, y := baseC.y, width := baseC.width,
                height := baseC.height, color := none } "note.md" none)) ∧
      (∀ j : Nat, j ≠ i →
        (CanvasTransformer.replaceLinkWithFileContent docWithEdge baseC.id "note.md").nodes[j]?
          = docWithEdge.nodes[j]?) ∧
      (∀ s, (∃ m ∈ docWithEdge.nodes, m.nodeId = s) →
        ∃ m ∈ (CanvasTransformer.replaceLinkWithFileContent docWithEdge baseC.id "note.md").nodes,
          m.nodeId = s) :=
  replaceLinkWithFile_frame docWithEdge baseC "https://c.example" "note.md"
    (by decide) (by decide)

/-! ## Helper lemmas about the orchestrator -/

/-- When the key is not in flight, `enrichLinkNode` runs the body and the
finally clause restores the in-flight set. -/
lemma enrichLinkNode_not_inflight (env : EnrichEnv) (prompt : String)
    (inFlight : List String) (canvasPath nodeId url : String)
    (h : ¬ (canvasPath ++ ":" ++ nodeId) ∈ inFlight) :
    DetailedCanvasPlugin.enrichLinkNode env prompt inFlight canvasPath nodeId url =
      { result := (DetailedCanvasPlugin.enrichBody env prompt nodeId url).1,
        inFlight := inFlight,
        effects := (DetailedCanvasPlugin.enrichBody env prompt nodeId url).2.1,
        canvasAfter := (DetailedCanvasPlugin.enrichBody env prompt nodeId url).2.2 } := by
  unfold DetailedCanvasPlugin.enrichLinkNode
  simp [h, List.erase_cons_head]

/-- The content transform leaves the document unchanged when no node carries
the looked-up id. -/
lemma replaceContent_missing (doc : CanvasData) (nodeId np : String)
    (hnone : ∀ n ∈ doc.nodes, n.nodeId ≠ nodeId) :
    CanvasTransformer.replaceLinkWithFileContent doc nodeId np = doc := by
  have hfind : doc.nodes.findIdx? (fun m => m.nodeId == nodeId) = none := by
    rw [List.findIdx?_eq_none_iff]
    intro x hx
    simp [hnone x hx]
  unfold CanvasTransformer.replaceLinkWithFileContent
  rw [hfind]

/-- The content transform leaves the document unchanged when the node found
under the looked-up id is not a link node. -/
lemma replaceContent_not_link (doc : CanvasData) (nodeId np : String)
    (hnodup : (doc.nodes.map CanvasNode.nodeId).Nodup)
    (n : CanvasNode) (hmem : n ∈ doc.nodes) (hid : n.nodeId = nodeId)
    (hnl : n.isLink = false) :
    CanvasTransformer.replaceLinkWithFileContent doc nodeId np = doc := by
  obtain ⟨i, hfi, hgi⟩ := findIdx_of_nodup_mem doc.nodes n nodeId hnodup hmem hid
  unfold CanvasTransformer.replaceLinkWithFileContent
  simp only [hfi, hgi]
  cases n with
  | link b u => simp [CanvasNode.isLink] at hnl
  | file b f s => rfl
  | text b t => rfl

/-- An environment whose provider and vault both succeed over `world404`,
with a parsed canvas that does not contain the targeted node id. -/
def envMissingNode : EnrichEnv :=
  { world := world404, generate := fun _ _ => .ok "generated text",
    createNote := .ok "Canvas Notes/x.md", canvasParsed := some docOnlyA }

/-- C3 counterexample: the claim states that an enrichment attempt whose
target node has vanished from the document reports failure. On this concrete
run the canvas parses but holds no node with the target id `n1`; the code
logs a warning, leaves the document unchanged, yet `replaceLinkWithFile`
returns `true` and the enrich result reports `success = true`, so the claim
as stated is false. -/
theorem replaceLink_vanished_reports_success_counterexample :
    (DetailedCanvasPlugin.enrichLinkNode envMissingNode "p" [] "a.canvas" "n1"
        "https://example.com/a").result =
      { success := true, notePath := some "Canvas Notes/x.md", error := none } ∧
    (DetailedCanvasPlugin.enrichLinkNode envMissingNode "p" [] "a.canvas" "n1"
        "https://example.com/a").canvasAfter = some docOnlyA ∧
    (∀ n ∈ docOnlyA.nodes, n.nodeId ≠ "n1") := by
  refine ⟨?_, ?_, ?_⟩ <;> decide

/-- C3 amended: the mutation step reports failure (and the enrich result
reports failure with `Failed to update canvas`) exactly when the canvas
content cannot be parsed or the write throws, and in that case the scrape
and generation work has already been performed; when the target node has
vanished from the document, or the node found under that id is not a link
node, the document is left unchanged but the step and the overall enrich
result both report success. -/
theorem enrich_mutation_failure_amended (env : EnrichEnv)
    (prompt : String) (inFlight : List String) (path nodeId url np : String)
    (hmem : ¬ (path ++ ":" ++ nodeId) ∈ inFlight)
    (hnote : env.createNote = .ok np) :
    (env.canvasParsed = none →
      (DetailedCanvasPlugin.enrichLinkNode env prompt inFlight path nodeId url).result =
        { success := false, notePath := none, error := some "Failed to update canvas" } ∧
      Effect.scraped url ∈
        (DetailedCanvasPlugin.enrichLinkNode env prompt inFlight path nodeId url).effects ∧
      Effect.generated prompt (ScraperService.scrape env.world url).textContent ∈
        (DetailedCanvasPlugin.enrichLinkNode env prompt inFlight path nodeId url).effects) ∧
    (∀ doc : CanvasData, env.canvasParsed = some doc →
      (∀ n ∈ doc.nodes, n.nodeId ≠ nodeId) →
      (DetailedCanvasPlugin.enrichLinkNode env prompt inFlight path nodeId url).result =
        { success := true, notePath := some np, error := none } ∧
      (DetailedCanvasPlugin.enrichLinkNode env prompt inFlight path nodeId url).canvasAfter
        = some doc) ∧
    (∀ doc : CanvasData, ∀ n : CanvasNode, env.canvasParsed = some doc →
      (doc.nodes.map CanvasNode.nodeId).Nodup → n ∈ doc.nodes → n.nodeId = nodeId →
      n.isLink = false →
      (DetailedCanvasPlugin.enrichLinkNode env prompt inFlight path nodeId url).result =
        { success := true, notePath := some np, error := none } ∧
      (DetailedCanvasPlugin.enrichLinkNode env prompt inFlight path nodeId url).canvasAfter
        = some doc) := by
  rw [enrichLinkNode_not_inflight env prompt inFlight path nodeId url hmem]
  refine ⟨?_, ?_, ?_⟩
  · intro hparse
    unfold DetailedCanvasPlugin.enrichBody
    rw [hnote, hparse]
    simp [CanvasTransformer.replaceLinkWithFile]
  · intro doc hdoc hnone
    unfold DetailedCanvasPlugin.enrichBody
    rw [hnote, hdoc]
    simp [CanvasTransformer.replaceLinkWithFile,
      replaceContent_missing doc nodeId np hnone]
  · intro doc n hdoc hnodup hmemn hid hnl
    unfold DetailedCanvasPlugin.enrichBody
    rw [hnote, hdoc]
    simp [CanvasTransformer.replaceLinkWithFile,
      replaceContent_not_link doc nodeId np hnodup n hmemn hid hnl]

/-- Witness for the amended C3: the vanished-node case on a concrete run. -/
theorem enrich_mutation_failure_amended_witness :
    (¬ ("a.canvas" ++ ":" ++ "n1") ∈ ([] : List String)) ∧
    (DetailedCanvasPlugin.enrichLinkNode envMissingNode "p" [] "a.canvas" "n1"
        "https://example.com/a").result =
      { success := true, notePath := some "Canvas Notes/x.md", error := none } := by
  refine ⟨by decide, ?_⟩
  exact ((enrich_mutation_failure_amended envMissingNode "p" [] "a.canvas" "n1"
    "https://example.com/a" "Canvas Notes/x.md" (by decide) rfl).2.1 docOnlyA rfl
    (by decide)).1

/-- C4 counterexample: the claim states that for every backend `listModels`
never raises and falls back to the configured model on any failure. The
Ollama backend rethrows a typed error instead: at the concrete outcome of a
500 response its `getModels` returns an error, so the claim as stated is
false. -/
theorem ollama_getModels_raises_counterexample :
    ¬ (∀ r : NetResult OllamaClient.TagsResponse,
        ∃ l : List String, OllamaClient.getModels r = Except.ok l) := by
  intro h
  obtain ⟨l, hl⟩ := h (.http 500 "server error" none)
  simp [OllamaClient.getModels] at hl

/-- C4 amended: the OpenAI-compatible backends' `getModels` never raises and
falls back to the single configured model identifier on every failure
(transport error, non-200 status, unreadable body, missing or non-array data
field), returning the listed ids on success; the Claude backend always
returns its fixed hardcoded list; the Ollama backend's `getModels` instead
raises a typed error on every such failure and returns the model names only
on success. -/
theorem getModels_contract (model : String) :
    (∀ msg : String,
       OpenAICompatibleProvider.getModels model (.transportError msg) = [model]) ∧
    (∀ (s : Nat) (t : String) (b : Option OpenAIModelsResponse), s ≠ 200 →
       OpenAICompatibleProvider.getModels model (.http s t b) = [model]) ∧
    (∀ t : String,
       OpenAICompatibleProvider.getModels model (.http 200 t none) = [model]) ∧
    (∀ t : String,
       OpenAICompatibleProvider.getModels model (.http 200 t (some { data := none }))
         = [model]) ∧
    (∀ (t : String) (entries : List OpenAIModelEntry),
       OpenAICompatibleProvider.getModels model
           (.http 200 t (some { data := some entries }))
         = entries.map OpenAIModelEntry.id) ∧
    (ClaudeProvider.getModels = CLAUDE_MODELS) ∧
    (∀ msg : String, ∃ e : String,
       OllamaClient.getModels (.transportError msg) = .error e) ∧
    (∀ (s : Nat) (t : String) (b : Option OllamaClient.TagsResponse), s ≠ 200 →
       ∃ e : String, OllamaClient.getModels (.http s t b) = .error e) ∧
    (∀ t : String, ∃ e : String,
       OllamaClient.getModels (.http 200 t none) = .error e) ∧
    (∀ t : String, ∃ e : String,
       OllamaClient.getModels (.http 200 t (some { models := none })) = .error e) ∧
    (∀ (t : String) (ms : List OllamaClient.ModelEntry),
       OllamaClient.getModels (.http 200 t (some { models := some ms }))
         = .ok (ms.map OllamaClient.ModelEntry.name)) := by
  refine ⟨fun msg => rfl, ?_, fun t => rfl, fun t => rfl, fun t entries => rfl, rfl,
    fun msg => ⟨_, rfl⟩, ?_, fun t => ⟨_, rfl⟩, fun t => ⟨_, rfl⟩, fun t ms => rfl⟩
  · intro s t b hs
    simp [OpenAICompatibleProvider.getModels, hs]
  · intro s t b hs
    refine ⟨"Failed to fetch models: Failed to fetch models: status " ++ toString s, ?_⟩
    simp [OllamaClient.getModels, hs]

/-- Witness for the amended C4: concrete 500 responses — the OpenAI-style
backend falls back to the configured model while the Ollama backend errors. -/
theorem getModels_contract_witness :
    ((500 : Nat) ≠ 200 ∧
      OpenAICompatibleProvider.getModels "m0" (.http 500 "err" none) = ["m0"]) ∧
    ∃ e : String, OllamaClient.getModels (.http 500 "err" none) = Except.error e := by
  refine ⟨⟨by decide, (getModels_contract "m0").2.1 500 "err" none (by decide)⟩, ?_⟩
  exact (getModels_contract "m0").2.2.2.2.2.2.2.1 500 "err" none (by decide)

/-- C5: scrape totality. The embedded `scrape` is a total function of its
inputs (no failure can escape the top-level catch), and every failure path —
an unparsable input URL, a transport rejection, a non-200 page fetch, a
twitter-host URL without a status-pattern match, and a rejected, non-200,
unreadable or tweet-less mirror API response — returns the record built by
`createEmptyMetadata`, whose title, description, cover image, site name and
favicon are all null and whose text content is the empty string. -/
theorem scrape_totality (w : World) (url : String) :
    (w.parseUrl url = none →
      ScraperService.scrape w url = ScraperService.createEmptyMetadata url) ∧
    (∀ parts : UrlParts, w.parseUrl url = some parts →
      ScraperService.twitterHosts.contains (toLowerStr parts.hostname) = false →
      (∀ msg : String, w.fetch url "GET" = .reject msg →
        ScraperService.scrape w url = ScraperService.createEmptyMetadata url) ∧
      (∀ r : HttpResp, w.fetch url "GET" = .resp r → r.status ≠ 200 →
        ScraperService.scrape w url = ScraperService.createEmptyMetadata url)) ∧
    (∀ parts : UrlParts, w.parseUrl url = some parts →
      ScraperService.twitterHosts.contains (toLowerStr parts.hostname) = true →
      (ScraperService.findStatusMatch url.toList = none →
        ScraperService.scrape w url = ScraperService.createEmptyMetadata url) ∧
      (∀ sn ti : String, ScraperService.findStatusMatch url.toList = some (sn, ti) →
        (∀ msg : String,
          w.fetch ("https://api.fxtwitter.com/" ++ sn ++ "/status/" ++ ti) "GET"
            = .reject msg →
          ScraperService.scrape w url = ScraperService.createEmptyMetadata url) ∧
        (∀ r : HttpResp,
          w.fetch ("https://api.fxtwitter.com/" ++ sn ++ "/status/" ++ ti) "GET"
            = .resp r → r.status ≠ 200 →
          ScraperService.scrape w url = ScraperService.createEmptyMetadata url) ∧
        (∀ r : HttpResp,
          w.fetch ("https://api.fxtwitter.com/" ++ sn ++ "/status/" ++ ti) "GET"
            = .resp r → r.status = 200 → r.tweetJson = none →
          ScraperService.scrape w url = ScraperService.createEmptyMetadata url) ∧
        (∀ (r : HttpResp) (body : TwitterApiBody),
          w.fetch ("https://api.fxtwitter.com/" ++ sn ++ "/status/" ++ ti) "GET"
            = .resp r → r.status = 200 → r.tweetJson = some body → body.tweet = none →
          ScraperService.scrape w url = ScraperService.createEmptyMetadata url))) ∧
    ((ScraperService.createEmptyMetadata url).title = none ∧
      (ScraperService.createEmptyMetadata url).description = none ∧
      (ScraperService.createEmptyMetadata url).ogImage = none ∧
      (ScraperService.createEmptyMetadata url).siteName = none ∧
      (ScraperService.createEmptyMetadata url).favicon = none ∧
      (ScraperService.createEmptyMetadata url).textContent = "") := by
  refine ⟨?_, ?_, ?_, rfl, rfl, rfl, rfl, rfl, rfl⟩
  · intro h
    unfold ScraperService.scrape
    rw [h]
  · intro parts hp htw
    constructor
    · intro msg hf
      unfold ScraperService.scrape
      rw [hp]
      simp only [htw, Bool.false_eq_true, if_false, hf]
    · intro r hf hs
      unfold ScraperService.scrape
      rw [hp]
      simp only [htw, Bool.false_eq_true, if_false, hf]
      simp [hs]
  · intro parts hp htw
    have hdispatch : ScraperService.scrape w url = ScraperService.scrapeTwitter w url := by
      unfold ScraperService.scrape
      rw [hp]
      simp only [htw, if_true]
    rw [hdispatch]
    constructor
    · intro hm
      unfold ScraperService.scrapeTwitter
      rw [hm]
    · intro sn ti hm
      refine ⟨?_, ?_, ?_, ?_⟩
      · intro msg hf
        unfold ScraperService.scrapeTwitter
        simp only [hm, hf]
      · intro r hf hs
        unfold ScraperService.scrapeTwitter
        simp only [hm, hf]
        simp [hs]
      · intro r hf hs hj
        unfold ScraperService.scrapeTwitter
        simp only [hm, hf]
        simp [hs, hj]
      · intro r body hf hs hj ht
        unfold ScraperService.scrapeTwitter
        simp only [hm, hf]
        simp [hs, hj, ht]

/-- Witness for C5: a concrete non-200 page fetch degrades to the empty
record. -/
theorem scrape_totality_witness :
    (world404.parseUrl "https://example.com/x"
        = some { hostname := "example.com", origin := "https://example.com",
                 protocol := "https:" } ∧
      ScraperService.twitterHosts.contains (toLowerStr "example.com") = false ∧
      world404.fetch "https://example.com/x" "GET"
        = .resp { status := 404, text := "", tweetJson := none } ∧
      (404 : Nat) ≠ 200) ∧
    ScraperService.scrape world404 "https://example.com/x"
      = ScraperService.createEmptyMetadata "https://example.com/x" := by
  refine ⟨⟨rfl, by decide, rfl, by decide⟩, ?_⟩
  exact ((scrape_totality world404 "https://example.com/x").2.1
    { hostname := "example.com", origin := "https://example.com", protocol := "https:" }
    rfl (by decide)).2 { status := 404, text := "", tweetJson := none } rfl (by decide)

/-- C6 counterexample: the claim states that for every backend `generate`
succeeds only when a non-empty generated text is extracted. The
OpenAI-compatible backend performs no emptiness check on the extracted
message content: on this concrete 200 response whose single choice carries
the empty content string, `generate` succeeds and returns the empty string,
so the claim as stated is false. -/
theorem openai_generate_empty_success_counterexample :
    OpenAICompatibleProvider.generate "m" "p" ""
        (fun _ => .http 200 ""
          (some { choices := some [{ message := some { content := some "" } }] }))
      = Except.ok "" := by
  rfl

/-- C6 amended: both embedded backends send the context under the fixed
`Context:` framing exactly when the context is non-empty, and consult the
network only at that framed prompt; both raise a typed generation failure on
transport failure, on a non-success status, and on an empty or invalid
response shape (unreadable body, missing response field, missing or empty
choices); the Ollama backend additionally raises when the extracted response
text is absent or empty and succeeds exactly with the trimmed non-empty
response text, while the OpenAI-compatible backend succeeds with the trimmed
content of the first choice even when that content is empty. -/
theorem generate_contract (model prompt context : String) :
    (context ≠ "" →
      fullPromptOf context prompt = "Context:\n" ++ context ++ "\n\n" ++ prompt) ∧
    (context = "" → fullPromptOf context prompt = prompt) ∧
    (∀ f g : OllamaRequest → NetResult OllamaGenerateResponse,
      f { model := model, prompt := fullPromptOf context prompt }
        = g { model := model, prompt := fullPromptOf context prompt } →
      OllamaClient.generate model prompt context f
        = OllamaClient.generate model prompt context g) ∧
    (∀ f g : String → NetResult OpenAIChatResponse,
      f (fullPromptOf context prompt) = g (fullPromptOf context prompt) →
      OpenAICompatibleProvider.generate model prompt context f
        = OpenAICompatibleProvider.generate model prompt context g) ∧
    (∀ (f : OllamaRequest → NetResult OllamaGenerateResponse) (t raw : String),
      f { model := model, prompt := fullPromptOf context prompt }
        = .http 200 t (some { response := some raw }) → raw ≠ "" →
      OllamaClient.generate model prompt context f = .ok (trimStr raw)) ∧
    (∀ (f : String → NetResult OpenAIChatResponse) (t raw : String)
       (rest : List OpenAIChoice),
      f (fullPromptOf context prompt)
        = .http 200 t (some (OpenAIChatResponse.mk
            (some (OpenAIChoice.mk (some (OpenAIMessage.mk (some raw))) :: rest)))) →
      OpenAICompatibleProvider.generate model prompt context f = .ok (trimStr raw)) ∧
    (∀ (f : OllamaRequest → NetResult OllamaGenerateResponse) (msg : String),
      f { model := model, prompt := fullPromptOf context prompt }
        = .transportError msg →
      ∃ e : String, OllamaClient.generate model prompt context f = .error e) ∧
    (∀ (f : OllamaRequest → NetResult OllamaGenerateResponse)
       (s : Nat) (t : String) (b : Option OllamaGenerateResponse),
      f { model := model, prompt := fullPromptOf context prompt } = .http s t b →
      s ≠ 200 →
      ∃ e : String, OllamaClient.generate model prompt context f = .error e) ∧
    (∀ (f : OllamaRequest → NetResult OllamaGenerateResponse)
       (t : String) (b : Option OllamaGenerateResponse),
      f { model := model, prompt := fullPromptOf context prompt } = .http 200 t b →
      (b = none ∨ b = some { response := none } ∨ b = some { response := some "" }) →
      ∃ e : String, OllamaClient.generate model prompt context f = .error e) ∧
    (∀ (f : String → NetResult OpenAIChatResponse) (msg : String),
      f (fullPromptOf context prompt) = .transportError msg →
      OpenAICompatibleProvider.generate model prompt context f = .error msg) ∧
    (∀ (f : String → NetResult OpenAIChatResponse)
       (s : Nat) (t : String) (b : Option OpenAIChatResponse),
      f (fullPromptOf context prompt) = .http s t b → s ≠ 200 →
      ∃ e : String, OpenAICompatibleProvider.generate model prompt context f = .error e) ∧
    (∀ (f : String → NetResult OpenAIChatResponse)
       (t : String) (b : Option OpenAIChatResponse),
      f (fullPromptOf context prompt) = .http 200 t b →
      (b = none ∨ b = some { choices := none } ∨ b = some { choices := some [] }) →
      ∃ e : String, OpenAICompatibleProvider.generate model prompt context f = .error e) := by
  refine ⟨?_, ?_, ?_, ?_, ?_, ?_, ?_, ?_, ?_, ?_, ?_, ?_⟩
  · intro h
    simp [fullPromptOf, h]
  · intro h
    simp [fullPromptOf, h]
  · intro f g h
    simp only [OllamaClient.generate]
    rw [h]
  · intro f g h
    simp only [OpenAICompatibleProvider.generate]
    rw [h]
  · intro f t raw hf hraw
    have hbe : (raw == "") = false := by simp [hraw]
    simp only [OllamaClient.generate]
    rw [hf]
    simp [hbe]
  · intro f t raw rest hf
    simp only [OpenAICompatibleProvider.generate]
    rw [hf]
    simp
  · intro f msg hf
    refine ⟨"Failed to generate text: " ++ msg, ?_⟩
    simp only [OllamaClient.generate]
    rw [hf]
  · intro f s t b hf hs
    have hbe : (s != 200) = true := by simp [hs]
    refine ⟨"Failed to generate text: Ollama API request failed with status "
      ++ toString s ++ ": " ++ t, ?_⟩
    simp only [OllamaClient.generate]
    rw [hf]
    simp only [hbe, if_true]
  · intro f t b hf hb
    simp only [OllamaClient.generate]
    rw [hf]
    simp only [bne_self_eq_false, Bool.false_eq_true, if_false]
    rcases hb with rfl | rfl | rfl
    · exact ⟨_, rfl⟩
    · exact ⟨_, rfl⟩
    · refine ⟨"Failed to generate text: Invalid response from Ollama API: missing response field", ?_⟩
      simp
  · intro f msg hf
    simp only [OpenAICompatibleProvider.generate]
    rw [hf]
  · intro f s t b hf hs
    have hbe : (s != 200) = true := by simp [hs]
    refine ⟨"API request failed with status " ++ toString s ++ ": " ++ t, ?_⟩
    simp only [OpenAICompatibleProvider.generate]
    rw [hf]
    simp only [hbe, if_true]
  · intro f t b hf hb
    simp only [OpenAICompatibleProvider.generate]
    rw [hf]
    simp only [bne_self_eq_false, Bool.false_eq_true, if_false]
    rcases hb with rfl | rfl | rfl
    · exact ⟨_, rfl⟩
    · exact ⟨_, rfl⟩
    · exact ⟨_, rfl⟩

/-- Witness for the amended C6: the context framing at a concrete non-empty
context, and a typed failure of the OpenAI-compatible backend on a concrete
500 response. -/
theorem generate_contract_witness :
    ("ctx" ≠ "" ∧ fullPromptOf "ctx" "p" = "Context:\n" ++ "ctx" ++ "\n\n" ++ "p") ∧
    ((500 : Nat) ≠ 200 ∧
      ∃ e : String, OpenAICompatibleProvider.generate "m" "p" "ctx"
        (fun _ => .http 500 "err" none) = .error e) := by
  refine ⟨⟨by decide, (generate_contract "m" "p" "ctx").1 (by decide)⟩, by decide, ?_⟩
  exact (generate_contract "m" "p" "ctx").2.2.2.2.2.2.2.2.2.2.1
    (fun _ => .http 500 "err" none) 500 "err" none rfl (by decide)

/-- A world under which every URL parses to the `x.com` host and the mirror
API answers with a tweet whose text is the empty string. -/
def worldEmptyTweet : World :=
  { parseUrl := fun _ =>
      some { hostname := "x.com", origin := "https://x.com", protocol := "https:" },
    resolveRel := fun _ _ => none,
    fetch := fun _ _ =>
      .resp { status := 200, text := "",
              tweetJson := some (TwitterApiBody.mk
                (some (Tweet.mk (some "") none none))) },
    parseHtml := fun _ => trivialDoc }

/-- An environment over `worldEmptyTweet` whose provider fails and whose
vault and canvas succeed. -/
def envEmptyTweet : EnrichEnv :=
  { world := worldEmptyTweet, generate := fun _ _ => .error "backend down",
    createNote := .ok "Canvas Notes/t.md", canvasParsed := some docOnlyA }

/-- C7 counterexample: the claim states that on generation failure the text
used for the artifact equals the extracted description whenever that is
non-null. On this concrete run the scraped tweet has the empty string as its
description (non-null), the provider fails, and the fallback uses the JS
truthiness test `metadata.description || placeholder`, so the note is
created with the placeholder instead of the empty description; the claim as
stated is false. -/
theorem generation_fallback_empty_description_counterexample :
    (ScraperService.scrape worldEmptyTweet "https://x.com/alice/status/123").description
      = some "" ∧
    Effect.noteCreated "No description available." ∈
      (DetailedCanvasPlugin.enrichLinkNode envEmptyTweet "p" [] "a.canvas" "a"
        "https://x.com/alice/status/123").effects ∧
    (DetailedCanvasPlugin.enrichLinkNode envEmptyTweet "p" [] "a.canvas" "a"
        "https://x.com/alice/status/123").result.success = true := by
  refine ⟨?_, ?_, ?_⟩ <;> decide

/-- C7 amended: when the generation provider fails the pipeline continues;
the text handed to the note generator equals the extracted description when
that is non-null and non-empty (the source tests JS truthiness, not only
null), and the fixed placeholder `No description available.` when the
description is null or empty; the overall enrich result still reports
success whenever note creation and the canvas write succeed. -/
theorem generation_failure_fallback (env : EnrichEnv) (prompt : String)
    (inFlight : List String) (path nodeId url : String)
    (hmem : ¬ (path ++ ":" ++ nodeId) ∈ inFlight) (e : String)
    (hgen : env.generate prompt (ScraperService.scrape env.world url).textContent
      = .error e) :
    (∀ d : String,
      (ScraperService.scrape env.world url).description = some d → d ≠ "" →
      Effect.noteCreated d ∈
        (DetailedCanvasPlugin.enrichLinkNode env prompt inFlight path nodeId url).effects) ∧
    ((ScraperService.scrape env.world url).description = none ∨
       (ScraperService.scrape env.world url).description = some "" →
      Effect.noteCreated "No description available." ∈
        (DetailedCanvasPlugin.enrichLinkNode env prompt inFlight path nodeId url).effects) ∧
    (∀ (np : String) (doc : CanvasData),
      env.createNote = .ok np → env.canvasParsed = some doc →
      (DetailedCanvasPlugin.enrichLinkNode env prompt inFlight path nodeId url).result
        = { success := true, notePath := some np, error := none }) := by
  rw [enrichLinkNode_not_inflight env prompt inFlight path nodeId url hmem]
  refine ⟨?_, ?_, ?_⟩
  · intro d hd hdne
    have hbne : (d != "") = true := by simp [hdne]
    simp only [DetailedCanvasPlugin.enrichBody, hgen, hd, hbne, if_true]
    cases hnote : env.createNote with
    | error msg => simp [hnote]
    | ok np =>
      simp only [hnote]
      split <;> simp
  · intro hd
    simp only [DetailedCanvasPlugin.enrichBody, hgen]
    rcases hd with hd | hd
    · simp only [hd]
      cases hnote : env.createNote with
      | error msg => simp [hnote]
      | ok np =>
        simp only [hnote]
        split <;> simp
    · simp only [hd, bne_self_eq_false, Bool.false_eq_true, if_false]
      cases hnote : env.createNote with
      | error msg => simp [hnote]
      | ok np =>
        simp only [hnote]
        split <;> simp
  · intro np doc hnote hdoc
    simp only [DetailedCanvasPlugin.enrichBody, hgen, hnote, hdoc,
      CanvasTransformer.replaceLinkWithFile]
    simp

/-- Witness for the amended C7: on the concrete empty-tweet run the
placeholder is used and the result still reports success. -/
theorem generation_failure_fallback_witness :
    (¬ ("a.canvas" ++ ":" ++ "a") ∈ ([] : List String)) ∧
    Effect.noteCreated "No description available." ∈
      (DetailedCanvasPlugin.enrichLinkNode envEmptyTweet "p" [] "a.canvas" "a"
        "https://x.com/alice/status/123").effects ∧
    (DetailedCanvasPlugin.enrichLinkNode envEmptyTweet "p" [] "a.canvas" "a"
        "https://x.com/alice/status/123").result
      = { success := true, notePath := some "Canvas Notes/t.md", error := none } := by
  refine ⟨by decide, ?_, ?_⟩
  · exact (generation_failure_fallback envEmptyTweet "p" [] "a.canvas" "a"
      "https://x.com/alice/status/123" (by decide) "backend down" rfl).2.1
      (Or.inr (by decide))
  · exact (generation_failure_fallback envEmptyTweet "p" [] "a.canvas" "a"
      "https://x.com/alice/status/123" (by decide) "backend down" rfl).2.2
      "Canvas Notes/t.md" docOnlyA rfl rfl

/-- C9: extraction determinism. The scraper instance carries no mutable
state (the class has no instance fields), so in the embedding a scrape is a
function of the input URL and the collaborator world alone: with the network
collaborator's responses held fixed — two worlds answering every query
identically — extraction yields byte-identical records, and running it
twice on identical input trivially does too. -/
theorem scrape_deterministic (w1 w2 : World) (url : String)
    (hp : ∀ s, w1.parseUrl s = w2.parseUrl s)
    (hr : ∀ a b, w1.resolveRel a b = w2.resolveRel a b)
    (hf : ∀ u m, w1.fetch u m = w2.fetch u m)
    (hh : ∀ s, w1.parseHtml s = w2.parseHtml s) :
    ScraperService.scrape w1 url = ScraperService.scrape w2 url ∧
    ScraperService.scrape w1 url = ScraperService.scrape w1 url := by
  have hw : w1 = w2 := by
    cases w1
    cases w2
    simp only [World.mk.injEq]
    exact ⟨funext hp, funext fun a => funext fun b => hr a b,
      funext fun u => funext fun m => hf u m, funext hh⟩
  exact ⟨by rw [hw], rfl⟩

/-- Witness for C9: the concrete 404 world agrees with itself, so the two
runs coincide. -/
theorem scrape_deterministic_witness :
    ((∀ s, world404.parseUrl s = world404.parseUrl s) ∧
      (∀ a b, world404.resolveRel a b = world404.resolveRel a b) ∧
      (∀ u m, world404.fetch u m = world404.fetch u m) ∧
      (∀ s, world404.parseHtml s = world404.parseHtml s)) ∧
    ScraperService.scrape world404 "https://example.com/x"
      = ScraperService.scrape world404 "https://example.com/x" := by
  refine ⟨⟨fun _ => rfl, fun _ _ => rfl, fun _ _ => rfl, fun _ => rfl⟩, ?_⟩
  exact (scrape_deterministic world404 world404 "https://example.com/x"
    (fun _ => rfl) (fun _ _ => rfl) (fun _ _ => rfl) (fun _ => rfl)).1

/-- C10: every record returned by scrape — on the HTML path, the mirror-API
path, and every failure path — carries the original input URL in its url
field, never the mirror-API URL or a normalized form. -/
theorem scrape_preserves_url (w : World) (url : String) :
    (ScraperService.scrape w url).url = url := by
  simp only [ScraperService.scrape, ScraperService.scrapeTwitter,
    ScraperService.createEmptyMetadata]
  repeat' split
  all_goals rfl

end DetailedCanvas
